import Mathlib

/-!
# The chat editor component (`internal/tui/components/chat/editor.go`)

A shallow embedding of the editor component: the component state, the two key
binding tables, the submit path `send`, the external editor path `openEditor`
with its completion callback, the event handler `Update`, the geometry
setter `SetSize`, the help list `BindingKeys` and the constructor
`NewEditorCmp`.

What the Go file reads from outside itself is made explicit:

* the busy flag, the `EDITOR` variable, the outcome of `os.CreateTemp` and the
  editing done by the text buffer's own `Update` are fields of `Env`;
* the temporary-file area is the state `FS`, passed in and out;
* the outcome of the external program and of `os.ReadFile` are arguments of
  the completion callback.

Go strings are modelled by `String`, Go `int` by `Int` (wrapped to 64 bits
where the source does arithmetic).
-/

namespace Editor

/-! ## Data model -/

/-- The `session.Session` record, as far as the editor looks at it: the `ID`
that is compared and handed to the busy query, and `Title` standing for the
fields the editor only carries along. -/
structure Session where
  ID : String
  Title : String
deriving DecidableEq, Repr

/-- The `textarea.Model` of the text buffer library, as far as the editor
observes it: the content returned by `Value()`, the flag returned by
`Focused()`, and the numbers last handed to `SetWidth` and `SetHeight`.  What
the library computes from those numbers internally is not part of this
repository. -/
structure Textarea where
  value : String
  focus : Bool
  width : Int
  height : Int
deriving DecidableEq, Repr

namespace Textarea

/-- The call `textarea.Value()`. -/
def Value (t : Textarea) : String := t.value

/-- The call `textarea.Reset()`: the content becomes empty. -/
def Reset (t : Textarea) : Textarea := { t with value := "" }

/-- The call `textarea.Blur()`. -/
def Blur (t : Textarea) : Textarea := { t with focus := false }

/-- The call `textarea.Focus()` (the command it returns is dropped by the source). -/
def Focus (t : Textarea) : Textarea := { t with focus := true }

/-- The call `textarea.Focused()`. -/
def Focused (t : Textarea) : Bool := t.focus

/-- The call `textarea.SetWidth(w)`: records the number handed over. -/
def SetWidth (t : Textarea) (w : Int) : Textarea := { t with width := w }

/-- The call `textarea.SetHeight(h)`: records the number handed over. -/
def SetHeight (t : Textarea) (h : Int) : Textarea := { t with height := h }

end Textarea

/-- The `editorCmp` struct; the `app` pointer is only used for the busy query,
which lives in `Env`. -/
structure EditorCmp where
  session : Session
  textarea : Textarea
deriving DecidableEq, Repr

/-- Messages (`tea.Msg` values) that occur in the file.
* `sessionSelected s` is `SessionSelectedMsg`, `focusEditor b` is
  `FocusEditorMsg`, `key k` is a `tea.KeyMsg` whose `String()` is `k`;
* `send text` is `SendMsg{Text: text}`, `editorFocus b` is `EditorFocusMsg(b)`;
* `warning` and `error` are the host notifications produced by running
  `util.ReportWarn` and `util.ReportError`;
* `errorReport err` is the value `util.ReportError(err)` itself, returned where
  a `tea.Msg` is expected (lines 85 and 89);
* `blink` is the cursor message of `textarea.Blink`;
* `other` is any message of another component. -/
inductive Msg where
  | sessionSelected (s : Session)
  | focusEditor (b : Bool)
  | key (k : String)
  | send (text : String)
  | editorFocus (b : Bool)
  | warning (text : String)
  | error (err : String)
  | errorReport (err : String)
  | blink
  | other (tag : Nat)
deriving DecidableEq, Repr

/-- Commands (`tea.Cmd` values) that occur in the file: `nil`,
`util.ReportWarn`, `util.ReportError`, `util.CmdHandler`, `textarea.Blink`,
`tea.ExecProcess` on `exec.Command(editor, path)` (its callback is
`editorCallback path`), `tea.Batch`, and commands of other components. -/
inductive Cmd where
  | nil
  | reportWarn (text : String)
  | reportError (err : String)
  | handler (msg : Msg)
  | blink
  | execProcess (editor : String) (path : String)
  | batch (cmds : List Cmd)
  | other (tag : Nat)
deriving Repr

/-- A `key.Binding`: the chords given to `key.WithKeys` and the two help texts
given to `key.WithHelp`. -/
structure Binding where
  keys : List String
  helpKey : String
  helpDesc : String
deriving DecidableEq, Repr

/-- The struct `focusedEditorKeyMaps`. -/
structure focusedEditorKeyMaps where
  Send : Binding
  OpenEditor : Binding
  Blur : Binding
deriving DecidableEq, Repr

/-- The struct `bluredEditorKeyMaps`. -/
structure bluredEditorKeyMaps where
  Send : Binding
  Focus : Binding
  OpenEditor : Binding
deriving DecidableEq, Repr

/-- The variable `focusedKeyMaps`. -/
def focusedKeyMaps : focusedEditorKeyMaps :=
  { Send := { keys := ["ctrl+s"], helpKey := "ctrl+s", helpDesc := "send message" }
    Blur := { keys := ["esc"], helpKey := "esc", helpDesc := "focus messages" }
    OpenEditor := { keys := ["ctrl+e"], helpKey := "ctrl+e", helpDesc := "open editor" } }

/-- The variable `bluredKeyMaps`. -/
def bluredKeyMaps : bluredEditorKeyMaps :=
  { Send := { keys := ["ctrl+s", "enter"], helpKey := "ctrl+s/enter", helpDesc := "send message" }
    Focus := { keys := ["i"], helpKey := "i", helpDesc := "focus editor" }
    OpenEditor := { keys := ["ctrl+e"], helpKey := "ctrl+e", helpDesc := "open editor" } }

/-- The call `key.Matches(msg, b)` for a key message whose `String()` is `k`:
`k` is one of the chords of the (enabled) binding. -/
def keyMatches (k : String) (b : Binding) : Bool := b.keys.contains k

/-- The temporary-file area: the scratch files that exist, and the log of
`os.Remove` calls in the order they were made. -/
structure FS where
  files : List String
  removed : List String
deriving DecidableEq, Repr

/-- The call `os.Remove(path)`. -/
def osRemove (path : String) (fs : FS) : FS :=
  { files := fs.files.erase path, removed := fs.removed ++ [path] }

/-- What the editor reads from its surroundings:
* `isSessionBusy` is `app.CoderAgent.IsSessionBusy`;
* `EDITOR` is `os.Getenv("EDITOR")` (empty when unset);
* `createTemp` is the outcome of `os.CreateTemp("", "msg_*.md")`: the name of
  the new file, or the error;
* `textareaEdit` is what the text buffer's own `Update` does with a message:
  the content afterwards, and the library command it returns (`none` for
  `nil`, `some tag` for one of the library's commands). -/
structure Env where
  isSessionBusy : String → Bool
  EDITOR : String
  createTemp : Except String String
  textareaEdit : Textarea → Msg → String × Option Nat

/-- The call `textarea.Update(msg)` of the text buffer library.  The library
edits the content and returns `nil` or a command of its own.  It does not call
its own `Focus`, `Blur`, `SetWidth` or `SetHeight`, so the focus flag and the
numbers handed over stay as they are, and its commands deliver messages of the
library (cursor, paste), never a message of this package. -/
def Textarea.Update (edit : Textarea → Msg → String × Option Nat) (t : Textarea)
    (msg : Msg) : Textarea × Cmd :=
  ({ t with value := (edit t msg).1 },
    match (edit t msg).2 with
    | none => Cmd.nil
    | some tag => Cmd.other tag)

/-- How running the external program ended, as seen by `tea.ExecProcess`. -/
inductive ExecOutcome where
  | cleanExit
  | nonZeroExit (code : Nat)
  | spawnFailure (reason : String)
deriving DecidableEq, Repr

/-- The `err` handed to the completion callback: `nil` exactly on a clean exit. -/
def ExecOutcome.err : ExecOutcome → Option String
  | .cleanExit => none
  | .nonZeroExit code => some ("exit status " ++ toString code)
  | .spawnFailure reason => some reason

/-- Go `int` arithmetic on a 64-bit platform: the result wrapped into
`[-2^63, 2^63)`. -/
def wrapInt (x : Int) : Int := (x + 2 ^ 63) % 2 ^ 64 - 2 ^ 63

/-! ## Operations -/

/-- The function literal handed to `tea.ExecProcess` in `openEditor` (lines
83-95), closed over `tmpfile.Name()`.  `err` is the error of the external
program, `readFile` the outcome of `os.ReadFile(tmpfile.Name())`, consulted
only when `err` is `nil`. -/
def editorCallback (tmpfile : String) (err : Option String)
    (readFile : Except String String) (fs : FS) : Msg × FS :=
  match err with
  | some e => (Msg.errorReport e, fs)
  | none =>
    match readFile with
    | .error e => (Msg.errorReport e, fs)
    | .ok content => (Msg.send content, osRemove tmpfile fs)

/-- The function `openEditor` (lines 68-96). -/
def openEditor (env : Env) (fs : FS) : Cmd × FS :=
  let editor := if env.EDITOR = "" then "nvim" else env.EDITOR
  match env.createTemp with
  | .error err => (Cmd.reportError err, fs)
  | .ok tmpfile => (Cmd.execProcess editor tmpfile, { fs with files := fs.files ++ [tmpfile] })

/-- The method `Init`. -/
def Init (_m : EditorCmp) : Cmd := Cmd.blink

/-- The method `send` (lines 102-118). -/
def send (env : Env) (m : EditorCmp) : EditorCmp × Cmd :=
  if env.isSessionBusy m.session.ID then
    (m, Cmd.reportWarn "Agent is working, please wait...")
  else
    let value := m.textarea.Value
    let m1 := { m with textarea := m.textarea.Reset }
    let m2 := { m1 with textarea := m1.textarea.Blur }
    if value = "" then (m2, Cmd.nil)
    else (m2, Cmd.batch [Cmd.handler (Msg.send value)])

/-- Lines 156-157 of `Update`: hand the message to the text buffer. -/
def delegate (env : Env) (fs : FS) (m : EditorCmp) (msg : Msg) : EditorCmp × Cmd × FS :=
  let r := m.textarea.Update env.textareaEdit msg
  ({ m with textarea := r.1 }, r.2, fs)

/-- The method `Update` (lines 120-158). -/
def Update (env : Env) (fs : FS) (m : EditorCmp) (msg : Msg) : EditorCmp × Cmd × FS :=
  match msg with
  | .sessionSelected s =>
    if s.ID ≠ m.session.ID then ({ m with session := s }, Cmd.nil, fs)
    else (m, Cmd.nil, fs)
  | .focusEditor b =>
    if b then
      ({ m with textarea := m.textarea.Focus },
        Cmd.batch [Cmd.blink, Cmd.handler (Msg.editorFocus true)], fs)
    else delegate env fs m msg
  | .key k =>
    if keyMatches k focusedKeyMaps.OpenEditor then
      if env.isSessionBusy m.session.ID then
        (m, Cmd.reportWarn "Agent is working, please wait...", fs)
      else
        let r := openEditor env fs
        (m, r.1, r.2)
    else if m.textarea.Focused && keyMatches k focusedKeyMaps.Send then
      let r := send env m
      (r.1, r.2, fs)
    else if !m.textarea.Focused && keyMatches k bluredKeyMaps.Send then
      let r := send env m
      (r.1, r.2, fs)
    else if m.textarea.Focused && keyMatches k focusedKeyMaps.Blur then
      ({ m with textarea := m.textarea.Blur }, Cmd.handler (Msg.editorFocus false), fs)
    else if !m.textarea.Focused && keyMatches k bluredKeyMaps.Focus then
      ({ m with textarea := m.textarea.Focus },
        Cmd.batch [Cmd.blink, Cmd.handler (Msg.editorFocus true)], fs)
    else delegate env fs m msg
  | _ => delegate env fs m msg

/-- The method `SetSize` (lines 166-170). -/
def SetSize (m : EditorCmp) (width height : Int) : EditorCmp × Cmd :=
  let m1 := { m with textarea := m.textarea.SetWidth (wrapInt (width - 3)) }
  let m2 := { m1 with textarea := m1.textarea.SetHeight height }
  (m2, Cmd.nil)

/-- The method `GetSize` (lines 172-174).  `taWidth` and `taHeight` are the
calls `textarea.Width()` and `textarea.Height()` of the text buffer library,
which computes them from the numbers handed to `SetWidth` and `SetHeight`; that
computation is not part of this repository. -/
def GetSize (taWidth taHeight : Textarea → Int) (m : EditorCmp) : Int × Int :=
  (taWidth m.textarea, taHeight m.textarea)

/-! ## Events a command delivers to the host -/

mutual
/-- Modelled from the spec: `util.ReportWarn`, `util.ReportError` and
`util.CmdHandler` live in `internal/tui/util`, which is not among the sources.
Following the outbound events the spec lists (`submit(text)`,
`focusChanged(bool)`, `warning(message)`, `error(err)`), running `ReportWarn`
delivers one warning, running `ReportError` one error, running `CmdHandler(msg)`
delivers `msg`, a batch delivers what its members deliver, and `nil` delivers
nothing.  An `ExecProcess` command delivers nothing by itself: its message is
produced by `editorCallback` once the external program has ended. -/
def Cmd.emitted : Cmd → List Msg
  | .nil => []
  | .reportWarn text => [Msg.warning text]
  | .reportError err => [Msg.error err]
  | .handler msg => [msg]
  | .blink => [Msg.blink]
  | .execProcess _ _ => []
  | .batch cmds => Cmd.emittedAll cmds
  | .other tag => [Msg.other tag]
/-- The events of a list of commands, in order. -/
def Cmd.emittedAll : List Cmd → List Msg
  | [] => []
  | c :: cs => Cmd.emitted c ++ Cmd.emittedAll cs
end

/-- The texts of the submit events (`SendMsg`) among some messages. -/
def submits (msgs : List Msg) : List String :=
  msgs.filterMap fun
    | .send text => some text
    | _ => none

/-- The texts of the warnings among some messages. -/
def warnings (msgs : List Msg) : List String :=
  msgs.filterMap fun
    | .warning text => some text
    | _ => none

/-- The texts of the error events among some messages. -/
def errors (msgs : List Msg) : List String :=
  msgs.filterMap fun
    | .error err => some err
    | _ => none

/-- Whether a command starts the external program. -/
def Cmd.spawns : Cmd → Bool
  | .execProcess _ _ => true
  | _ => false

/-- Content that is empty or consists of white space only. -/
def isBlank (s : String) : Bool := s.data.all Char.isWhitespace

/-- The values of the focus notifications (`EditorFocusMsg`) among some messages. -/
def focusChanges (msgs : List Msg) : List Bool :=
  msgs.filterMap fun
    | .editorFocus b => some b
    | _ => none

/-- Content with leading and trailing white space removed. -/
def trimSpace (s : String) : String :=
  String.mk ((s.data.dropWhile Char.isWhitespace).reverse.dropWhile Char.isWhitespace).reverse

/-- The call `textarea.New()` of the text buffer library: no content, not
focused, width and height at the library's defaults (40 and 6). -/
def Textarea.New : Textarea := { value := "", focus := false, width := 40, height := 6 }

/-- The function `NewEditorCmp` (lines 188-207).  The assignments to `Prompt`,
`ShowLineNumbers`, the blurred and focused styles and `CharLimit` configure how
the library renders and limits input; they touch neither content nor focus flag
and have no counterpart in `Textarea`.  The `session` field is left at its zero
value. -/
def NewEditorCmp : EditorCmp :=
  let ti := Textarea.New
  let ti := ti.Focus
  { session := { ID := "", Title := "" }, textarea := ti }

/-- Modelled from the spec: `layout.KeyMapToSlice` lives in
`internal/tui/layout`, which is not among the sources.  It turns a key-map
struct into the list of its bindings; the members are listed in the order of
the struct's fields, the order in which the spec (4.1) names the members of the
focused-mode table. -/
def focusedEditorKeyMaps.KeyMapToSlice (km : focusedEditorKeyMaps) : List Binding :=
  [km.Send, km.OpenEditor, km.Blur]

/-- Modelled from the spec: `layout.KeyMapToSlice` on the blurred-mode table,
in the order of the struct's fields, the order in which the spec (4.1) names
the members of the blurred-mode table. -/
def bluredEditorKeyMaps.KeyMapToSlice (km : bluredEditorKeyMaps) : List Binding :=
  [km.Send, km.Focus, km.OpenEditor]

/-- The method `BindingKeys` (lines 176-186); `textareaKeys` is
`layout.KeyMapToSlice(m.textarea.KeyMap)`, the key map of the text buffer
library as a list. -/
def BindingKeys (textareaKeys : List Binding) (m : EditorCmp) : List Binding :=
  let bindings : List Binding := []
  let bindings :=
    if m.textarea.Focused then bindings ++ focusedKeyMaps.KeyMapToSlice
    else bindings ++ bluredKeyMaps.KeyMapToSlice
  bindings ++ textareaKeys

/-! ## Key resolution as the specification words it -/

/-- The logical actions of the two binding tables. -/
inductive Action where
  | Send
  | OpenExternalEditor
  | Blur
  | Focus
deriving DecidableEq, Repr

/-- The binding table of a focus mode as the spec describes it (4.1): the
actions of that mode with their bindings, `OpenExternalEditor` first. -/
def modeTable (focused : Bool) : List (Action × Binding) :=
  if focused then
    [(Action.OpenExternalEditor, focusedKeyMaps.OpenEditor),
     (Action.Send, focusedKeyMaps.Send),
     (Action.Blur, focusedKeyMaps.Blur)]
  else
    [(Action.OpenExternalEditor, bluredKeyMaps.OpenEditor),
     (Action.Send, bluredKeyMaps.Send),
     (Action.Focus, bluredKeyMaps.Focus)]

/-- The resolution contract of the spec (4.1): given a key and the focus mode,
the first action of that mode's table whose binding matches, if any. -/
def specResolve (focused : Bool) (k : String) : Option Action :=
  ((modeTable focused).find? fun p => keyMatches k p.2).map Prod.fst

/-- What the spec (4.3) attaches to each logical action, and to a key that
resolves to none: the key goes unchanged to the text buffer's own editing
logic, whose content and command are the result. -/
def specPerform (env : Env) (fs : FS) (m : EditorCmp) (k : String) :
    Option Action → EditorCmp × Cmd × FS
  | some Action.OpenExternalEditor =>
    if env.isSessionBusy m.session.ID then
      (m, Cmd.reportWarn "Agent is working, please wait...", fs)
    else (m, (openEditor env fs).1, (openEditor env fs).2)
  | some Action.Send => ((send env m).1, (send env m).2, fs)
  | some Action.Blur =>
    ({ m with textarea := m.textarea.Blur }, Cmd.handler (Msg.editorFocus false), fs)
  | some Action.Focus =>
    ({ m with textarea := m.textarea.Focus },
      Cmd.batch [Cmd.blink, Cmd.handler (Msg.editorFocus true)], fs)
  | none =>
    ({ m with textarea := (m.textarea.Update env.textareaEdit (Msg.key k)).1 },
      (m.textarea.Update env.textareaEdit (Msg.key k)).2, fs)

/-! ## Sample inputs -/

/-- A session with identifier `A`. -/
def sessionA : Session := { ID := "A", Title := "chat" }

/-- Surroundings in which every session is busy. -/
def busyEnv : Env :=
  { isSessionBusy := fun _ => true
    EDITOR := ""
    createTemp := .ok "/tmp/msg_1.md"
    textareaEdit := fun t _ => (t.value, none) }

/-- Surroundings in which no session is busy. -/
def idleEnv : Env :=
  { isSessionBusy := fun _ => false
    EDITOR := ""
    createTemp := .ok "/tmp/msg_1.md"
    textareaEdit := fun t _ => (t.value, none) }

/-- Surroundings in which no session is busy and the text buffer, when focused,
appends the name of a key to its content and returns a command of its own. -/
def typingEnv : Env :=
  { isSessionBusy := fun _ => false
    EDITOR := ""
    createTemp := .ok "/tmp/msg_1.md"
    textareaEdit := fun t msg =>
      match msg with
      | .key k => if t.focus then (t.value ++ k, some 1) else (t.value, none)
      | _ => (t.value, none) }

/-- An editor with the given content and focus flag, 97 columns by 5 rows. -/
def editorWith (content : String) (focus : Bool) : EditorCmp :=
  { session := sessionA, textarea := { value := content, focus := focus, width := 97, height := 5 } }

/-- An empty temporary-file area. -/
def emptyFS : FS := { files := [], removed := [] }

/-! ## Theorems -/

/-- C1: while the current session is busy, `send` emits no submit event and
exactly one warning (the busy message), and leaves the component, in particular
the buffer content and the focus flag, as it was. -/
theorem send_busy (env : Env) (m : EditorCmp)
    (hbusy : env.isSessionBusy m.session.ID = true) :
    submits (send env m).2.emitted = [] ∧
    warnings (send env m).2.emitted = ["Agent is working, please wait..."] ∧
    (send env m).2.emitted = [Msg.warning "Agent is working, please wait..."] ∧
    (send env m).1.textarea.value = m.textarea.value ∧
    (send env m).1.textarea.focus = m.textarea.focus ∧
    (send env m).1 = m := by
  simp [send, hbusy, Cmd.emitted, submits, warnings]

/-- Witness of C1: the buffer holds "hello", the editor is focused, the session is busy. -/
theorem send_busy_witness :
    busyEnv.isSessionBusy (editorWith "hello" true).session.ID = true ∧
    submits (send busyEnv (editorWith "hello" true)).2.emitted = [] ∧
    warnings (send busyEnv (editorWith "hello" true)).2.emitted
      = ["Agent is working, please wait..."] ∧
    (send busyEnv (editorWith "hello" true)).1.textarea.value = "hello" ∧
    (send busyEnv (editorWith "hello" true)).1.textarea.focus = true :=
  have h := send_busy busyEnv (editorWith "hello" true) rfl
  ⟨rfl, h.1, h.2.1, h.2.2.2.1, h.2.2.2.2.1⟩

/-- C2: when the current session is not busy and the buffer content is non-empty
and not white space only, `send` leaves the buffer empty and the focus flag off
(Blurred), and emits exactly one submit event, whose text is the original
buffer content. -/
theorem send_submits (env : Env) (m : EditorCmp)
    (hidle : env.isSessionBusy m.session.ID = false)
    (hne : m.textarea.value ≠ "")
    (_hws : isBlank m.textarea.value = false) :
    (send env m).1.textarea.value = "" ∧
    (send env m).1.textarea.focus = false ∧
    (send env m).2.emitted = [Msg.send m.textarea.value] ∧
    submits (send env m).2.emitted = [m.textarea.value] ∧
    warnings (send env m).2.emitted = [] := by
  simp [send, hidle, hne, Textarea.Value, Textarea.Reset, Textarea.Blur,
    Cmd.emitted, Cmd.emittedAll, submits, warnings]

/-- Witness of C2: session A is idle, the focused buffer holds "hello". -/
theorem send_submits_witness :
    (send idleEnv (editorWith "hello" true)).1.textarea.value = "" ∧
    (send idleEnv (editorWith "hello" true)).1.textarea.focus = false ∧
    (send idleEnv (editorWith "hello" true)).2.emitted = [Msg.send "hello"] ∧
    submits (send idleEnv (editorWith "hello" true)).2.emitted = ["hello"] ∧
    warnings (send idleEnv (editorWith "hello" true)).2.emitted = [] :=
  send_submits idleEnv (editorWith "hello" true) rfl (by decide) (by decide)

/-- C3 as stated fails: with an idle session and a buffer holding one space
(white space only), `send` emits a submit event. -/
theorem send_blank_counterexample :
    ¬ ∀ (env : Env) (m : EditorCmp), env.isSessionBusy m.session.ID = false →
        isBlank m.textarea.value = true →
        submits (send env m).2.emitted = [] ∧ warnings (send env m).2.emitted = [] := by
  intro h
  have h1 := (h idleEnv (editorWith " " true) rfl (by decide)).1
  simp [send, idleEnv, editorWith, Textarea.Value, Cmd.emitted, Cmd.emittedAll, submits] at h1

/-- C3, amended: when the current session is not busy, `send` never emits a
warning; it emits no submit event when the buffer content is empty, and for any
other content, white space only included, it emits one submit event carrying
that content as it is (the test is exact emptiness, nothing is trimmed). -/
theorem send_empty_silent (env : Env) (m : EditorCmp)
    (hidle : env.isSessionBusy m.session.ID = false) :
    warnings (send env m).2.emitted = [] ∧
    (m.textarea.value = "" → (send env m).2.emitted = [] ∧
      submits (send env m).2.emitted = []) ∧
    (m.textarea.value ≠ "" → submits (send env m).2.emitted = [m.textarea.value]) := by
  by_cases hv : m.textarea.value = "" <;>
    simp [send, hidle, hv, Textarea.Value, Cmd.emitted, Cmd.emittedAll, submits, warnings]

/-- Witness of C3, amended: an idle session and an empty buffer. -/
theorem send_empty_silent_witness :
    idleEnv.isSessionBusy (editorWith "" true).session.ID = false ∧
    warnings (send idleEnv (editorWith "" true)).2.emitted = [] ∧
    submits (send idleEnv (editorWith "" true)).2.emitted = [] :=
  have h := send_empty_silent idleEnv (editorWith "" true) rfl
  ⟨rfl, h.1, (h.2.1 rfl).2⟩

/-- C4 as stated fails: with an idle session, `send` on an empty buffer turns a
focused editor into a blurred one, so the focus flag is not what it was. -/
theorem send_blank_untouched_counterexample :
    ¬ ∀ (env : Env) (m : EditorCmp), env.isSessionBusy m.session.ID = false →
        isBlank m.textarea.value = true →
        (send env m).1.textarea.value = m.textarea.value ∧
        (send env m).1.textarea.focus = m.textarea.focus := by
  intro h
  have h1 := (h idleEnv (editorWith "" true) rfl (by decide)).2
  simp [send, idleEnv, editorWith, Textarea.Value, Textarea.Reset, Textarea.Blur] at h1

/-- C4, amended: when the current session is not busy, `send` leaves the buffer
empty and the focus flag off, whatever the content, and changes nothing else
(session, width and height are kept).  So for an empty buffer the content is
unchanged, and the component is untouched exactly when the buffer was already
empty and the editor already blurred. -/
theorem send_idle_state (env : Env) (m : EditorCmp)
    (hidle : env.isSessionBusy m.session.ID = false) :
    (send env m).1 =
      { m with textarea := { m.textarea with value := "", focus := false } } ∧
    (m.textarea.value = "" → (send env m).1.textarea.value = m.textarea.value) ∧
    ((send env m).1 = m ↔ m.textarea.value = "" ∧ m.textarea.focus = false) := by
  have hst : (send env m).1 =
      { m with textarea := { m.textarea with value := "", focus := false } } := by
    by_cases hv : m.textarea.value = "" <;>
      simp [send, hidle, hv, Textarea.Value, Textarea.Reset, Textarea.Blur]
  refine ⟨hst, ?_, ?_⟩
  · intro hv
    rw [hst, hv]
  · rw [hst]
    obtain ⟨s, ⟨v, f, w, ht⟩⟩ := m
    simp only [EditorCmp.mk.injEq, Textarea.mk.injEq, true_and, and_true]
    constructor
    · rintro ⟨h1, h2⟩
      exact ⟨h1.symm, h2.symm⟩
    · rintro ⟨h1, h2⟩
      exact ⟨h1.symm, h2.symm⟩

/-- Witness of C4, amended: an idle session, an empty buffer, a focused editor. -/
theorem send_idle_state_witness :
    idleEnv.isSessionBusy (editorWith "" true).session.ID = false ∧
    (send idleEnv (editorWith "" true)).1 = editorWith "" false :=
  ⟨rfl, (send_idle_state idleEnv (editorWith "" true) rfl).1⟩

/-- C5, the code at the failing input: the external program exits cleanly and
the scratch file is read successfully but is empty; the completion callback
returns a submit event whose text is empty, although `send` on an empty buffer
emits none. -/
theorem editorCallback_empty_submit :
    (editorCallback "/tmp/msg_1.md" ExecOutcome.cleanExit.err (.ok "")
        { files := ["/tmp/msg_1.md"], removed := [] }).1 = Msg.send "" ∧
    submits (send idleEnv (editorWith "" true)).2.emitted = [] := by
  constructor
  · rfl
  · simp [send, idleEnv, editorWith, Textarea.Value, Cmd.emitted, submits]

/-- C6, the code at the failing inputs: a scratch file created by `openEditor`
is removed once when the program exits cleanly and the read succeeds, but on a
read failure, on a non-zero exit and on a spawn failure the completion callback
returns without any `os.Remove` call and the file is still there. -/
theorem editorCallback_leaves_scratch :
    (openEditor idleEnv emptyFS) =
      (Cmd.execProcess "nvim" "/tmp/msg_1.md",
        { files := ["/tmp/msg_1.md"], removed := [] }) ∧
    (editorCallback "/tmp/msg_1.md" ExecOutcome.cleanExit.err (.ok "hello")
        (openEditor idleEnv emptyFS).2).2 = { files := [], removed := ["/tmp/msg_1.md"] } ∧
    (editorCallback "/tmp/msg_1.md" ExecOutcome.cleanExit.err (.error "read failed")
        (openEditor idleEnv emptyFS).2).2 = { files := ["/tmp/msg_1.md"], removed := [] } ∧
    (editorCallback "/tmp/msg_1.md" (ExecOutcome.nonZeroExit 1).err (.ok "hello")
        (openEditor idleEnv emptyFS).2).2 = { files := ["/tmp/msg_1.md"], removed := [] } ∧
    (editorCallback "/tmp/msg_1.md" (ExecOutcome.spawnFailure "not found").err (.ok "")
        (openEditor idleEnv emptyFS).2).2 = { files := ["/tmp/msg_1.md"], removed := [] } := by
  refine ⟨rfl, ?_, rfl, rfl, rfl⟩
  simp [editorCallback, ExecOutcome.err, openEditor, idleEnv, emptyFS, osRemove]

/-- C7, the code at the failing inputs: on a non-zero exit, on a spawn failure
and on a read failure after a clean exit, the one message the completion
callback returns is the value `util.ReportError(err)` itself, a command that
nothing runs, so no error and no warning reaches the host (on no path at all);
the same value returned by `openEditor` as its command when `os.CreateTemp`
fails (line 76) does deliver the error.  On a clean exit with a successful
read the message is the submit event with the content read. -/
theorem editorCallback_error_not_delivered :
    (editorCallback "/tmp/msg_1.md" (ExecOutcome.nonZeroExit 1).err (.ok "hello") emptyFS).1
      = Msg.errorReport "exit status 1" ∧
    (editorCallback "/tmp/msg_1.md" (ExecOutcome.spawnFailure "not found").err (.ok "")
        emptyFS).1 = Msg.errorReport "not found" ∧
    (editorCallback "/tmp/msg_1.md" ExecOutcome.cleanExit.err (.error "read failed")
        emptyFS).1 = Msg.errorReport "read failed" ∧
    (∀ tmpfile err readFile fs,
      errors [(editorCallback tmpfile err readFile fs).1] = [] ∧
      warnings [(editorCallback tmpfile err readFile fs).1] = []) ∧
    errors (openEditor { idleEnv with createTemp := .error "permission denied" }
        emptyFS).1.emitted = ["permission denied"] ∧
    (editorCallback "/tmp/msg_1.md" ExecOutcome.cleanExit.err (.ok "hello") emptyFS).1
      = Msg.send "hello" := by
  refine ⟨rfl, rfl, rfl, ?_, ?_, rfl⟩
  · intro tmpfile err readFile fs
    cases err with
    | some e => simp [editorCallback, errors, warnings]
    | none =>
      cases readFile with
      | error e => simp [editorCallback, errors, warnings]
      | ok content => simp [editorCallback, errors, warnings]
  · simp [openEditor, idleEnv, Cmd.emitted, errors]

/-- C8: for a key matching the open-editor chord, `Update` takes the
open-editor branch whatever the focus flag: the result is the busy warning or
the result of `openEditor`, with the component returned as it was.  Hence two
components that differ only in the focus flag get the same command and the same
effect on the temporary-file area, and in both the buffer content and the focus
flag are unchanged. -/
theorem Update_openEditor_any_focus (env : Env) (fs : FS) (m : EditorCmp) (f : Bool)
    (k : String) (hk : keyMatches k focusedKeyMaps.OpenEditor = true) :
    Update env fs m (Msg.key k) =
      (if env.isSessionBusy m.session.ID then
        (m, Cmd.reportWarn "Agent is working, please wait...", fs)
       else (m, (openEditor env fs).1, (openEditor env fs).2)) ∧
    (Update env fs { m with textarea := { m.textarea with focus := f } } (Msg.key k)).2
      = (Update env fs m (Msg.key k)).2 ∧
    (Update env fs m (Msg.key k)).1 = m ∧
    (Update env fs { m with textarea := { m.textarea with focus := f } } (Msg.key k)).1
      = { m with textarea := { m.textarea with focus := f } } := by
  cases hb : env.isSessionBusy m.session.ID <;> simp [Update, hk, hb]

/-- Witness of C8: the chord `ctrl+e`, a focused editor holding "hello" and its
blurred twin, with an idle session. -/
theorem Update_openEditor_any_focus_witness :
    keyMatches "ctrl+e" focusedKeyMaps.OpenEditor = true ∧
    (Update idleEnv emptyFS (editorWith "hello" false) (Msg.key "ctrl+e")).2
      = (Update idleEnv emptyFS (editorWith "hello" true) (Msg.key "ctrl+e")).2 ∧
    (Update idleEnv emptyFS (editorWith "hello" true) (Msg.key "ctrl+e")).1
      = editorWith "hello" true ∧
    (Update idleEnv emptyFS (editorWith "hello" false) (Msg.key "ctrl+e")).1
      = editorWith "hello" false :=
  have h := Update_openEditor_any_focus idleEnv emptyFS (editorWith "hello" true) false
    "ctrl+e" (by decide)
  ⟨by decide, h.2.1, h.2.2.1, h.2.2.2⟩

/-- C9: on a key matching the open-editor chord, when the current session is
busy `Update` does not call `openEditor`: the temporary-file area is unchanged
(no scratch file is created), the command returned does not start a process, it
delivers exactly one warning and no submit event, and the component (buffer
content and focus flag included) is unchanged.  When the session is not busy
the command and the file area are those of `openEditor`, which creates the
scratch file and returns the process command whenever `os.CreateTemp` succeeds. -/
theorem Update_openEditor_busy_gate (env : Env) (fs : FS) (m : EditorCmp) (k : String)
    (hk : keyMatches k focusedKeyMaps.OpenEditor = true) :
    (env.isSessionBusy m.session.ID = true →
      (Update env fs m (Msg.key k)).2.2 = fs ∧
      (Update env fs m (Msg.key k)).2.1.spawns = false ∧
      (Update env fs m (Msg.key k)).2.1.emitted
        = [Msg.warning "Agent is working, please wait..."] ∧
      warnings (Update env fs m (Msg.key k)).2.1.emitted
        = ["Agent is working, please wait..."] ∧
      submits (Update env fs m (Msg.key k)).2.1.emitted = [] ∧
      (Update env fs m (Msg.key k)).1 = m) ∧
    (env.isSessionBusy m.session.ID = false →
      (Update env fs m (Msg.key k)).2 = openEditor env fs ∧
      (Update env fs m (Msg.key k)).1 = m ∧
      ∀ tmpfile, env.createTemp = .ok tmpfile →
        (Update env fs m (Msg.key k)).2.1.spawns = true ∧
        (Update env fs m (Msg.key k)).2.2.files = fs.files ++ [tmpfile]) := by
  constructor
  · intro hb
    simp [Update, hk, hb, Cmd.spawns, Cmd.emitted, warnings, submits]
  · intro hb
    refine ⟨by simp [Update, hk, hb], by simp [Update, hk, hb], ?_⟩
    intro tmpfile ht
    simp [Update, hk, hb, openEditor, ht, Cmd.spawns]

/-- Witness of C9: `ctrl+e` on a focused editor holding "hello", once with a
busy and once with an idle session. -/
theorem Update_openEditor_busy_gate_witness :
    keyMatches "ctrl+e" focusedKeyMaps.OpenEditor = true ∧
    (Update busyEnv emptyFS (editorWith "hello" true) (Msg.key "ctrl+e")).2.2 = emptyFS ∧
    (Update busyEnv emptyFS (editorWith "hello" true) (Msg.key "ctrl+e")).2.1.spawns = false ∧
    (Update idleEnv emptyFS (editorWith "hello" true) (Msg.key "ctrl+e")).2.1.spawns = true ∧
    (Update idleEnv emptyFS (editorWith "hello" true) (Msg.key "ctrl+e")).2.2.files
      = emptyFS.files ++ ["/tmp/msg_1.md"] :=
  have hb := (Update_openEditor_busy_gate busyEnv emptyFS (editorWith "hello" true)
    "ctrl+e" (by decide)).1 rfl
  have hi := ((Update_openEditor_busy_gate idleEnv emptyFS (editorWith "hello" true)
    "ctrl+e" (by decide)).2 rfl).2.2 "/tmp/msg_1.md" rfl
  ⟨by decide, hb.1, hb.2.1, hi.1, hi.2⟩

/-- C10 as stated fails: `SetSize(0, 10)` hands the width `-3` to the text
buffer, which is negative and not clamped to a width of at least 1. -/
theorem SetSize_negative_counterexample :
    ¬ ∀ (m : EditorCmp) (totalWidth totalHeight : Int),
        0 ≤ totalWidth → totalWidth < 2 ^ 63 →
        0 ≤ (SetSize m totalWidth totalHeight).1.textarea.width ∧
        (totalWidth < 3 → 1 ≤ (SetSize m totalWidth totalHeight).1.textarea.width) := by
  intro h
  have h1 := (h (editorWith "" true) 0 10 (by decide) (by decide)).1
  revert h1
  decide

/-- C10, amended: for every non-negative `totalWidth` (a Go `int`) and every
`totalHeight`, the width `SetSize` hands to the text buffer is
`totalWidth - 3`, without any clamping: it is non-negative exactly when
`totalWidth` is at least 3, and negative when `totalWidth` is smaller than the
margin of 3. -/
theorem SetSize_width (m : EditorCmp) (totalWidth totalHeight : Int)
    (h0 : 0 ≤ totalWidth) (hmax : totalWidth < 2 ^ 63) :
    (SetSize m totalWidth totalHeight).1.textarea.width = totalWidth - 3 ∧
    (0 ≤ (SetSize m totalWidth totalHeight).1.textarea.width ↔ 3 ≤ totalWidth) ∧
    (totalWidth < 3 → (SetSize m totalWidth totalHeight).1.textarea.width < 0) := by
  have hw : wrapInt (totalWidth - 3) = totalWidth - 3 := by
    unfold wrapInt
    have h1 : (totalWidth - 3 + 2 ^ 63) % 2 ^ 64 = totalWidth - 3 + 2 ^ 63 :=
      Int.emod_eq_of_lt (by omega) (by omega)
    omega
  have hs : (SetSize m totalWidth totalHeight).1.textarea.width = totalWidth - 3 := by
    simp [SetSize, Textarea.SetWidth, Textarea.SetHeight, hw]
  refine ⟨hs, ?_, ?_⟩
  · rw [hs]; omega
  · intro h; rw [hs]; omega

/-- Witness of C10, amended: widths 100 and 2. -/
theorem SetSize_width_witness :
    (SetSize (editorWith "" true) 100 5).1.textarea.width = 97 ∧
    (SetSize (editorWith "" true) 2 5).1.textarea.width < 0 :=
  ⟨(SetSize_width (editorWith "" true) 100 5 (by decide) (by decide)).1,
   (SetSize_width (editorWith "" true) 2 5 (by decide) (by decide)).2.2 (by decide)⟩

/-- C11: for every `totalWidth` of at least 3 (a Go `int`) and every
`totalHeight`, `SetSize` hands `totalWidth - 3` to the text buffer's `SetWidth`
and `totalHeight`, unchanged, to its `SetHeight`, keeps buffer content, focus
flag and session, and returns the `nil` command, which delivers no event. -/
theorem SetSize_geometry (m : EditorCmp) (totalWidth totalHeight : Int)
    (h3 : 3 ≤ totalWidth) (hmax : totalWidth < 2 ^ 63) :
    (SetSize m totalWidth totalHeight).1.textarea.width = totalWidth - 3 ∧
    (SetSize m totalWidth totalHeight).1.textarea.height = totalHeight ∧
    (SetSize m totalWidth totalHeight).1.textarea.value = m.textarea.value ∧
    (SetSize m totalWidth totalHeight).1.textarea.focus = m.textarea.focus ∧
    (SetSize m totalWidth totalHeight).1.session = m.session ∧
    (SetSize m totalWidth totalHeight).2 = Cmd.nil ∧
    (SetSize m totalWidth totalHeight).2.emitted = [] := by
  have hw : wrapInt (totalWidth - 3) = totalWidth - 3 := by
    unfold wrapInt
    have h1 : (totalWidth - 3 + 2 ^ 63) % 2 ^ 64 = totalWidth - 3 + 2 ^ 63 :=
      Int.emod_eq_of_lt (by omega) (by omega)
    omega
  simp [SetSize, Textarea.SetWidth, Textarea.SetHeight, hw, Cmd.emitted]

/-- Witness of C11: a total width of 100 hands over a buffer width of 97. -/
theorem SetSize_geometry_witness :
    (SetSize (editorWith "hello" true) 100 5).1.textarea.width = 97 ∧
    (SetSize (editorWith "hello" true) 100 5).1.textarea.height = 5 ∧
    (SetSize (editorWith "hello" true) 100 5).1.textarea.value = "hello" ∧
    (SetSize (editorWith "hello" true) 100 5).1.textarea.focus = true ∧
    (SetSize (editorWith "hello" true) 100 5).2.emitted = [] :=
  have h := SetSize_geometry (editorWith "hello" true) 100 5 (by decide) (by decide)
  ⟨h.1, h.2.1, h.2.2.1, h.2.2.2.1, h.2.2.2.2.2.2⟩

/-- C12: `Update` on `FocusEditorMsg(true)` in any state, and on a key
matching the blurred-mode `Focus` chord in a blurred state, leaves the focus
flag on (Focused) and the buffer content unchanged, and returns the batch of the
cursor-blink command and one `EditorFocusMsg(true)`: one focus notification
with value true, no submit event, no warning. -/
theorem Update_focus_transition (env : Env) (fs : FS) (m : EditorCmp) :
    ((Update env fs m (Msg.focusEditor true)).1.textarea.focus = true ∧
      (Update env fs m (Msg.focusEditor true)).1.textarea.value = m.textarea.value ∧
      (Update env fs m (Msg.focusEditor true)).2.1
        = Cmd.batch [Cmd.blink, Cmd.handler (Msg.editorFocus true)] ∧
      focusChanges (Update env fs m (Msg.focusEditor true)).2.1.emitted = [true] ∧
      submits (Update env fs m (Msg.focusEditor true)).2.1.emitted = [] ∧
      warnings (Update env fs m (Msg.focusEditor true)).2.1.emitted = []) ∧
    (∀ k, m.textarea.Focused = false → keyMatches k bluredKeyMaps.Focus = true →
      (Update env fs m (Msg.key k)).1.textarea.focus = true ∧
      (Update env fs m (Msg.key k)).1.textarea.value = m.textarea.value ∧
      (Update env fs m (Msg.key k)).2.1
        = Cmd.batch [Cmd.blink, Cmd.handler (Msg.editorFocus true)] ∧
      focusChanges (Update env fs m (Msg.key k)).2.1.emitted = [true] ∧
      submits (Update env fs m (Msg.key k)).2.1.emitted = [] ∧
      warnings (Update env fs m (Msg.key k)).2.1.emitted = []) := by
  constructor
  · simp [Update, Textarea.Focus, Cmd.emitted, Cmd.emittedAll, focusChanges, submits, warnings]
  · intro k hf hk
    have hki : k = "i" := by simpa [keyMatches, bluredKeyMaps] using hk
    subst hki
    have h1 : keyMatches "i" focusedKeyMaps.OpenEditor = false := by decide
    have h2 : keyMatches "i" bluredKeyMaps.Send = false := by decide
    have h3 : keyMatches "i" bluredKeyMaps.Focus = true := by decide
    simp [Update, hf, h1, h2, h3, Textarea.Focus, Cmd.emitted, Cmd.emittedAll,
      focusChanges, submits, warnings]

/-- Witness of C12: the key `i` on a blurred editor holding "hello". -/
theorem Update_focus_transition_witness :
    (editorWith "hello" false).textarea.Focused = false ∧
    keyMatches "i" bluredKeyMaps.Focus = true ∧
    (Update idleEnv emptyFS (editorWith "hello" false) (Msg.key "i")).1.textarea.focus = true ∧
    (Update idleEnv emptyFS (editorWith "hello" false) (Msg.key "i")).1.textarea.value
      = "hello" ∧
    focusChanges (Update idleEnv emptyFS (editorWith "hello" false) (Msg.key "i")).2.1.emitted
      = [true] :=
  have h := (Update_focus_transition idleEnv emptyFS (editorWith "hello" false)).2 "i" rfl
    (by decide)
  ⟨rfl, by decide, h.1, h.2.1, h.2.2.2.1⟩

/-- C13: in a focused state, `Update` on a key matching the focused-mode `Blur`
chord leaves the focus flag off (Blurred) and the buffer content unchanged, and
returns one `EditorFocusMsg(false)`: one focus notification with value false,
no submit event, no warning. -/
theorem Update_blur_transition (env : Env) (fs : FS) (m : EditorCmp) (k : String)
    (hf : m.textarea.Focused = true) (hk : keyMatches k focusedKeyMaps.Blur = true) :
    (Update env fs m (Msg.key k)).1.textarea.focus = false ∧
    (Update env fs m (Msg.key k)).1.textarea.value = m.textarea.value ∧
    (Update env fs m (Msg.key k)).2.1 = Cmd.handler (Msg.editorFocus false) ∧
    (Update env fs m (Msg.key k)).2.1.emitted = [Msg.editorFocus false] ∧
    focusChanges (Update env fs m (Msg.key k)).2.1.emitted = [false] ∧
    submits (Update env fs m (Msg.key k)).2.1.emitted = [] ∧
    warnings (Update env fs m (Msg.key k)).2.1.emitted = [] := by
  have hke : k = "esc" := by simpa [keyMatches, focusedKeyMaps] using hk
  subst hke
  have h1 : keyMatches "esc" focusedKeyMaps.OpenEditor = false := by decide
  have h2 : keyMatches "esc" focusedKeyMaps.Send = false := by decide
  have h3 : keyMatches "esc" focusedKeyMaps.Blur = true := by decide
  simp [Update, hf, h1, h2, h3, Textarea.Blur, Cmd.emitted, focusChanges, submits, warnings]

/-- Witness of C13: the key `esc` on a focused editor holding "hello". -/
theorem Update_blur_transition_witness :
    (Update idleEnv emptyFS (editorWith "hello" true) (Msg.key "esc")).1.textarea.focus
      = false ∧
    (Update idleEnv emptyFS (editorWith "hello" true) (Msg.key "esc")).1.textarea.value
      = "hello" ∧
    focusChanges (Update idleEnv emptyFS (editorWith "hello" true) (Msg.key "esc")).2.1.emitted
      = [false] :=
  have h := Update_blur_transition idleEnv emptyFS (editorWith "hello" true) "esc" rfl
    (by decide)
  ⟨h.1, h.2.1, h.2.2.2.2.1⟩

/-- C14: for every key and every state, `Update` does what the spec's
resolution yields on the table of the current focus mode: the action performed
is the one `specResolve` finds in that mode's table (at most one, and its
binding in that table matches the key), and a key that resolves to no action
goes unchanged to the text buffer's own `Update`, whose text buffer and command
are the result, with session and temporary-file area untouched.  In particular
a focused editor triggers no Send or Focus on `enter` and `i` and a blurred
editor no Blur on `esc`: these keys go to the text buffer. -/
theorem Update_key_resolution (env : Env) (fs : FS) (m : EditorCmp) (k : String) :
    Update env fs m (Msg.key k)
      = specPerform env fs m k (specResolve m.textarea.Focused k) ∧
    (∀ a, specResolve m.textarea.Focused k = some a →
      ∃ b, (a, b) ∈ modeTable m.textarea.Focused ∧ keyMatches k b = true) ∧
    (specResolve m.textarea.Focused k = none →
      Update env fs m (Msg.key k)
        = ({ m with textarea := (m.textarea.Update env.textareaEdit (Msg.key k)).1 },
            (m.textarea.Update env.textareaEdit (Msg.key k)).2, fs)) ∧
    (m.textarea.Focused = true → k = "enter" ∨ k = "i" →
      Update env fs m (Msg.key k)
        = ({ m with textarea := { m.textarea with
                value := (env.textareaEdit m.textarea (Msg.key k)).1 } },
            (m.textarea.Update env.textareaEdit (Msg.key k)).2, fs)) ∧
    (m.textarea.Focused = false → k = "esc" →
      Update env fs m (Msg.key k)
        = ({ m with textarea := { m.textarea with
                value := (env.textareaEdit m.textarea (Msg.key k)).1 } },
            (m.textarea.Update env.textareaEdit (Msg.key k)).2, fs)) := by
  have hmain : Update env fs m (Msg.key k)
      = specPerform env fs m k (specResolve m.textarea.Focused k) := by
    obtain ⟨s, ⟨v, f, w, h⟩⟩ := m
    by_cases h1 : k = "ctrl+e"
    · subst h1
      cases f <;> cases hb : env.isSessionBusy s.ID <;>
        simp [Update, specPerform, specResolve, modeTable, keyMatches, focusedKeyMaps,
          bluredKeyMaps, Textarea.Focused, hb]
    · by_cases h2 : k = "ctrl+s"
      · subst h2
        cases f <;>
          simp [Update, specPerform, specResolve, modeTable, keyMatches, focusedKeyMaps,
            bluredKeyMaps, Textarea.Focused]
      · by_cases h3 : k = "enter"
        · subst h3
          cases f <;>
            simp [Update, delegate, specPerform, specResolve, modeTable, keyMatches,
              focusedKeyMaps, bluredKeyMaps, Textarea.Focused]
        · by_cases h4 : k = "esc"
          · subst h4
            cases f <;>
              simp [Update, delegate, specPerform, specResolve, modeTable, keyMatches,
                focusedKeyMaps, bluredKeyMaps, Textarea.Focused]
          · by_cases h5 : k = "i"
            · subst h5
              cases f <;>
                simp [Update, delegate, specPerform, specResolve, modeTable, keyMatches,
                  focusedKeyMaps, bluredKeyMaps, Textarea.Focused]
            · cases f <;>
                simp [Update, delegate, specPerform, specResolve, modeTable, keyMatches,
                  focusedKeyMaps, bluredKeyMaps, Textarea.Focused, h1, h2, h3, h4, h5]
  refine ⟨hmain, ?_, ?_, ?_, ?_⟩
  · intro a ha
    unfold specResolve at ha
    rw [Option.map_eq_some'] at ha
    obtain ⟨p, hp, hpa⟩ := ha
    refine ⟨p.2, ?_, ?_⟩
    · have hmem := List.mem_of_find?_eq_some hp
      rw [← hpa]
      exact hmem
    · have := List.find?_some hp
      simpa using this
  · intro hnone
    rw [hmain, hnone]
    rfl
  · intro hf hk
    have hr : specResolve m.textarea.Focused k = none := by
      rw [hf]
      rcases hk with rfl | rfl <;> decide
    rw [hmain, hr]
    rfl
  · intro hf hk
    have hr : specResolve m.textarea.Focused k = none := by
      rw [hf, hk]
      decide
    rw [hmain, hr]
    rfl

/-- Witness of C14: with a text buffer that appends the key when focused, `i`
on a focused editor holding "hello" is typed into the buffer and triggers no
Focus notification, and `esc` on a blurred editor leaves it blurred. -/
theorem Update_key_resolution_witness :
    Update typingEnv emptyFS (editorWith "hello" true) (Msg.key "i")
      = (editorWith "helloi" true, Cmd.other 1, emptyFS) ∧
    Update typingEnv emptyFS (editorWith "hello" false) (Msg.key "esc")
      = (editorWith "hello" false, Cmd.nil, emptyFS) :=
  ⟨(Update_key_resolution typingEnv emptyFS (editorWith "hello" true) "i").2.2.2.1 rfl
      (Or.inr rfl),
   (Update_key_resolution typingEnv emptyFS (editorWith "hello" false) "esc").2.2.2.2 rfl rfl⟩

/-- C15: on a session-selection event `s`, `Update` leaves a session whose `ID`
is `s.ID`: the stored session becomes `s` when the identifiers differ and is
kept as it is otherwise.  Focus flag and buffer content (the whole text buffer)
are unchanged, the temporary-file area is unchanged, and the command is `nil`,
which delivers no event. -/
theorem Update_sessionSelected (env : Env) (fs : FS) (m : EditorCmp) (s : Session) :
    (Update env fs m (Msg.sessionSelected s)).1.session.ID = s.ID ∧
    (s.ID ≠ m.session.ID → (Update env fs m (Msg.sessionSelected s)).1.session = s) ∧
    (s.ID = m.session.ID → (Update env fs m (Msg.sessionSelected s)).1.session = m.session) ∧
    (Update env fs m (Msg.sessionSelected s)).1.textarea = m.textarea ∧
    (Update env fs m (Msg.sessionSelected s)).2.1 = Cmd.nil ∧
    (Update env fs m (Msg.sessionSelected s)).2.1.emitted = [] ∧
    (Update env fs m (Msg.sessionSelected s)).2.2 = fs := by
  by_cases h : s.ID = m.session.ID <;> simp [Update, h, Cmd.emitted]

/-- Witness of C15: selecting a session `B` while `A` is stored, and selecting
a session with the stored identifier but another title. -/
theorem Update_sessionSelected_witness :
    (Update idleEnv emptyFS (editorWith "hello" true)
        (Msg.sessionSelected { ID := "B", Title := "other" })).1.session
      = { ID := "B", Title := "other" } ∧
    (Update idleEnv emptyFS (editorWith "hello" true)
        (Msg.sessionSelected { ID := "A", Title := "renamed" })).1.session = sessionA :=
  ⟨(Update_sessionSelected idleEnv emptyFS (editorWith "hello" true)
      { ID := "B", Title := "other" }).2.1 (by decide),
   (Update_sessionSelected idleEnv emptyFS (editorWith "hello" true)
      { ID := "A", Title := "renamed" }).2.2.1 rfl⟩

/-- C16: when creating the scratch file fails, `openEditor` returns the error
report of that failure and nothing else: the command is not a process command,
running it delivers one error and no submit event, and the temporary-file area
is unchanged. -/
theorem openEditor_createTemp_fails (env : Env) (fs : FS) (err : String)
    (hfail : env.createTemp = .error err) :
    (openEditor env fs).1 = Cmd.reportError err ∧
    (openEditor env fs).1.spawns = false ∧
    (openEditor env fs).1.emitted = [Msg.error err] ∧
    submits (openEditor env fs).1.emitted = [] ∧
    (openEditor env fs).2 = fs := by
  simp [openEditor, hfail, Cmd.spawns, Cmd.emitted, submits]

/-- Witness of C16: the temporary directory refuses the new file. -/
theorem openEditor_createTemp_fails_witness :
    (openEditor { idleEnv with createTemp := .error "permission denied" } emptyFS).1
      = Cmd.reportError "permission denied" ∧
    (openEditor { idleEnv with createTemp := .error "permission denied" } emptyFS).2
      = emptyFS :=
  have h := openEditor_createTemp_fails
    { idleEnv with createTemp := .error "permission denied" } emptyFS "permission denied" rfl
  ⟨h.1, h.2.2.2.2⟩

/-- C17: the component returned by `NewEditorCmp` is focused and its buffer is
empty. -/
theorem NewEditorCmp_initial :
    NewEditorCmp.textarea.Focused = true ∧
    NewEditorCmp.textarea.Value = "" ∧
    NewEditorCmp.session.ID = "" := by
  decide

/-- C18 as stated fails: with an idle session and a buffer holding " hi ", the
submit event of `send` carries " hi ", not the trimmed text "hi". -/
theorem send_trim_counterexample :
    ¬ ∀ (env : Env) (m : EditorCmp), env.isSessionBusy m.session.ID = false →
        trimSpace m.textarea.value ≠ "" →
        submits (send env m).2.emitted = [trimSpace m.textarea.value] := by
  intro h
  have h1 := h idleEnv (editorWith " hi " true) rfl (by decide)
  have h2 : submits (send idleEnv (editorWith " hi " true)).2.emitted = [" hi "] := by
    simp [send, idleEnv, editorWith, Textarea.Value, Cmd.emitted, Cmd.emittedAll, submits]
  rw [h2] at h1
  revert h1
  decide

/-- C18, amended: when `send` succeeds (session not busy, content non-empty
after trimming), the text carried by the one submit event is the buffer content
exactly as it was, with its leading and trailing white space; it is the trimmed
content only when the content has no white space to trim. -/
theorem send_text_verbatim (env : Env) (m : EditorCmp)
    (hidle : env.isSessionBusy m.session.ID = false)
    (htrim : trimSpace m.textarea.value ≠ "") :
    submits (send env m).2.emitted = [m.textarea.value] ∧
    (submits (send env m).2.emitted = [trimSpace m.textarea.value]
      ↔ trimSpace m.textarea.value = m.textarea.value) := by
  have hne : m.textarea.value ≠ "" := by
    intro h0
    apply htrim
    rw [h0]
    rfl
  have hs : submits (send env m).2.emitted = [m.textarea.value] := by
    simp [send, hidle, hne, Textarea.Value, Cmd.emitted, Cmd.emittedAll, submits]
  refine ⟨hs, ?_⟩
  rw [hs]
  constructor
  · intro h
    exact (List.cons.inj h).1.symm
  · intro h
    rw [h]

/-- Witness of C18, amended: an idle session and a buffer holding " hi ". -/
theorem send_text_verbatim_witness :
    idleEnv.isSessionBusy (editorWith " hi " true).session.ID = false ∧
    trimSpace " hi " = "hi" ∧
    submits (send idleEnv (editorWith " hi " true)).2.emitted = [" hi "] :=
  ⟨rfl, by decide, (send_text_verbatim idleEnv (editorWith " hi " true) rfl (by decide)).1⟩

/-- C19: on `FocusEditorMsg(false)`, `Update` does nothing but hand the message
to the text buffer's own `Update`: the focus flag is exactly as it was (a
focused editor stays focused, a blurred one blurred), no focus notification, no
submit event and no warning is delivered, the command is the one the text
buffer returns, and session, geometry and temporary-file area are unchanged. -/
theorem Update_focusEditor_false (env : Env) (fs : FS) (m : EditorCmp) :
    (Update env fs m (Msg.focusEditor false)).1.textarea.focus = m.textarea.focus ∧
    focusChanges (Update env fs m (Msg.focusEditor false)).2.1.emitted = [] ∧
    submits (Update env fs m (Msg.focusEditor false)).2.1.emitted = [] ∧
    warnings (Update env fs m (Msg.focusEditor false)).2.1.emitted = [] ∧
    (Update env fs m (Msg.focusEditor false)).1.textarea
      = (m.textarea.Update env.textareaEdit (Msg.focusEditor false)).1 ∧
    (Update env fs m (Msg.focusEditor false)).2.1
      = (m.textarea.Update env.textareaEdit (Msg.focusEditor false)).2 ∧
    (Update env fs m (Msg.focusEditor false)).1.session = m.session ∧
    (Update env fs m (Msg.focusEditor false)).1.textarea.width = m.textarea.width ∧
    (Update env fs m (Msg.focusEditor false)).1.textarea.height = m.textarea.height ∧
    (Update env fs m (Msg.focusEditor false)).2.2 = fs := by
  cases hc : (env.textareaEdit m.textarea (Msg.focusEditor false)).2 <;>
    simp [Update, delegate, Textarea.Update, hc, Cmd.emitted, focusChanges, submits,
      warnings]

/-- C20: the list returned by `BindingKeys` is the table of the current focus
mode followed by the text buffer's key map: its first three entries are the
focused-mode bindings (Send `ctrl+s`, OpenEditor, Blur) exactly when the editor
is focused and the blurred-mode bindings (Send `ctrl+s`/`enter`, Focus,
OpenEditor) exactly when it is blurred, and the rest is the text buffer's key
map in either case. -/
theorem BindingKeys_by_focus (textareaKeys : List Binding) (m : EditorCmp) :
    BindingKeys textareaKeys m
      = (if m.textarea.Focused then
          [focusedKeyMaps.Send, focusedKeyMaps.OpenEditor, focusedKeyMaps.Blur]
         else [bluredKeyMaps.Send, bluredKeyMaps.Focus, bluredKeyMaps.OpenEditor])
        ++ textareaKeys ∧
    ((BindingKeys textareaKeys m).take 3
        = [focusedKeyMaps.Send, focusedKeyMaps.OpenEditor, focusedKeyMaps.Blur]
      ↔ m.textarea.Focused = true) ∧
    ((BindingKeys textareaKeys m).take 3
        = [bluredKeyMaps.Send, bluredKeyMaps.Focus, bluredKeyMaps.OpenEditor]
      ↔ m.textarea.Focused = false) ∧
    (BindingKeys textareaKeys m).drop 3 = textareaKeys := by
  cases hf : m.textarea.Focused <;>
    simp [BindingKeys, hf, focusedEditorKeyMaps.KeyMapToSlice,
      bluredEditorKeyMaps.KeyMapToSlice] <;> decide

end Editor
